import Mathlib

/-!
Shallow embedding of the whisper-node core (src/whisper-rust/src/lib.rs):
the model registry/manager (`WhisperManager`), the per-model lazy-loading
slot (`WhisperModel`) and the CPU-trend monitor (`CpuMonitor`).

Modelling conventions:
- `Instant` / `Duration` become `Nat` tick counts (seconds); `elapsed` at
  time `now` is `now - last_used` (truncated subtraction; time is monotone).
- `f32` CPU percentages become exact rationals `ℚ`; none of the verified
  properties depend on floating-point rounding.
- The external engine (`WhisperContext`) is an abstract type parameter `C`;
  its constructor and inference calls are passed in as `Except`-valued
  oracles, mirroring the black-box FFI boundary.
- Lock acquisitions (`RwLock`/`Mutex`) are modelled by boolean oracles:
  `true` means the acquisition succeeds, `false` that it fails (poisoned).
- The `HashMap<String, Arc<Mutex<WhisperModel>>>` registry becomes an
  association list `List (String × WhisperModel C)`; insertion overwrites
  the entry at an existing key, as `HashMap::insert` does.
-/

namespace WhisperNode

/-- Rust `str::contains(sub)`: substring containment test. -/
def strContains (s sub : String) : Bool :=
  s.data.tails.any (fun t => sub.data.isPrefixOf t)

/-- Model size variants (`enum ModelSize`). -/
inductive ModelSize where
  | Tiny
  | Small
  | Medium
deriving DecidableEq

/-- `ModelSize::from_name`: first substring match of "tiny"/"small" wins,
anything else defaults to `Medium`. -/
def ModelSize.from_name (name : String) : ModelSize :=
  if strContains name "tiny" then ModelSize.Tiny
  else if strContains name "small" then ModelSize.Small
  else ModelSize.Medium

/-- `ModelSize::memory_limit` in bytes. -/
def ModelSize.memory_limit : ModelSize → Nat
  | ModelSize.Tiny => 100 * 1024 * 1024
  | ModelSize.Small => 400 * 1024 * 1024
  | ModelSize.Medium => 700 * 1024 * 1024

/-- `ModelSize::cpu_threshold`: 80% for every variant. -/
def ModelSize.cpu_threshold (_ : ModelSize) : ℚ := 80

/-- `struct ModelInfo`: immutable model descriptor. -/
structure ModelInfo where
  name : String
  size : ModelSize
  memory_usage : Nat
  cpu_factor : ℚ
deriving DecidableEq

/-- `struct WhisperModel`: per-model lazy-loading slot. `C` is the abstract
engine-handle type (`WhisperContext`). -/
structure WhisperModel (C : Type) where
  ctx : Option C
  model_path : String
  model_info : ModelInfo
  last_used : Nat
  idle_timeout : Nat
  is_loading : Bool
deriving DecidableEq

/-- `WhisperModel::new`: fresh unloaded slot; `last_used` is the creation
instant, `idle_timeout` 30 seconds. -/
def WhisperModel.new {C : Type} (now : Nat) (model_path : String)
    (model_info : ModelInfo) : WhisperModel C :=
  { ctx := none
    model_path := model_path
    model_info := model_info
    last_used := now
    idle_timeout := 30
    is_loading := false }

/-- The trailing `self.ctx.as_ref().ok_or_else(|| "Model not loaded")` of
`ensure_loaded`. -/
def ctxResult {C : Type} (m : WhisperModel C) : Except String C :=
  match m.ctx with
  | some c => Except.ok c
  | none => Except.error "Model not loaded"

/-- `WhisperModel::ensure_loaded`: touches `last_used` unconditionally; when
unloaded and not already loading, invokes the engine constructor (the
`engine` oracle stands for `WhisperContext::new_with_params` on the stored
path); on failure clears the loading mark and returns the load error.
Returns the `Result` together with the mutated slot. -/
def WhisperModel.ensure_loaded {C : Type} (engine : Except String C)
    (now : Nat) (m : WhisperModel C) : Except String C × WhisperModel C :=
  let m1 : WhisperModel C := { m with last_used := now }
  if m1.ctx.isNone && !m1.is_loading then
    let m2 : WhisperModel C := { m1 with is_loading := true }
    match engine with
    | Except.ok context =>
        let m3 : WhisperModel C := { m2 with ctx := some context, is_loading := false }
        (ctxResult m3, m3)
    | Except.error e =>
        let m3 : WhisperModel C := { m2 with is_loading := false }
        (Except.error ("Failed to load model: " ++ e), m3)
  else
    (ctxResult m1, m1)

/-- `WhisperModel::should_unload`: resident and idle past the timeout. -/
def WhisperModel.should_unload {C : Type} (now : Nat) (m : WhisperModel C) : Bool :=
  m.ctx.isSome && decide (m.idle_timeout < now - m.last_used)

/-- `WhisperModel::unload`: drops the engine handle unconditionally. -/
def WhisperModel.unload {C : Type} (m : WhisperModel C) : WhisperModel C :=
  { m with ctx := none }

/-- `WhisperModel::memory_usage`: the registered footprint while resident,
otherwise 0. -/
def WhisperModel.memory_usage {C : Type} (m : WhisperModel C) : Nat :=
  match m.ctx with
  | some _ => m.model_info.memory_usage
  | none => 0

/-- `struct CpuMonitor`: bounded sample buffer plus monotone counter. -/
structure CpuMonitor where
  cpu_samples : List ℚ
  sample_count : Nat
  max_samples : Nat
deriving DecidableEq

/-- `CpuMonitor::new`: empty buffer, capacity 10. -/
def CpuMonitor.new : CpuMonitor :=
  { cpu_samples := [], sample_count := 0, max_samples := 10 }

/-- `CpuMonitor::record_cpu_usage`: append while under capacity, otherwise
overwrite index `sample_count % max_samples`; always bump `sample_count`. -/
def CpuMonitor.record_cpu_usage (m : CpuMonitor) (cpu_percent : ℚ) : CpuMonitor :=
  let samples :=
    if m.cpu_samples.length < m.max_samples then
      m.cpu_samples ++ [cpu_percent]
    else
      m.cpu_samples.set (m.sample_count % m.max_samples) cpu_percent
  { m with cpu_samples := samples, sample_count := m.sample_count + 1 }

/-- `CpuMonitor::average_cpu_usage`: mean of held samples, 0 when empty. -/
def CpuMonitor.average_cpu_usage (m : CpuMonitor) : ℚ :=
  if m.cpu_samples.isEmpty then 0
  else m.cpu_samples.sum / (m.cpu_samples.length : ℚ)

/-- `CpuMonitor::should_downgrade`: average strictly above the threshold. -/
def CpuMonitor.should_downgrade (m : CpuMonitor) (threshold : ℚ) : Bool :=
  decide (threshold < m.average_cpu_usage)

/-- Feed a sequence of samples into the monitor in order. -/
def feedAll (m : CpuMonitor) (xs : List ℚ) : CpuMonitor :=
  xs.foldl CpuMonitor.record_cpu_usage m

/-- `struct WhisperManager`: the registry of slots, the global memory budget
and the shared CPU monitor. The `Arc<Mutex<_>>` wrappers become the lock
oracles threaded through each operation. -/
structure WhisperManager (C : Type) where
  models : List (String × WhisperModel C)
  memory_limit : Nat
  cpu_monitor : CpuMonitor
deriving DecidableEq

/-- `WhisperManager::new`: empty registry, 700MB peak limit, fresh monitor. -/
def WhisperManager.new {C : Type} : WhisperManager C :=
  { models := [], memory_limit := 700 * 1024 * 1024, cpu_monitor := CpuMonitor.new }

/-- `HashMap::insert`: overwrite the entry at an existing key, otherwise
add a new one. -/
def insertModel {C : Type} (id : String) (m : WhisperModel C)
    (l : List (String × WhisperModel C)) : List (String × WhisperModel C) :=
  if l.any (fun p => p.1 = id) then
    l.map (fun p => if p.1 = id then (id, m) else p)
  else
    l ++ [(id, m)]

/-- `HashMap::get`: look the slot up by id. -/
def lookupModel {C : Type} (id : String)
    (l : List (String × WhisperModel C)) : Option (WhisperModel C) :=
  match l.find? (fun p => p.1 = id) with
  | some p => some p.2
  | none => none

/-- `WhisperManager::register_model`: fresh unloaded slot inserted under the
registry write lock (`wlk`), overwriting any prior entry at that id. -/
def WhisperManager.register_model {C : Type} (wlk : Bool) (now : Nat)
    (id model_path : String) (model_info : ModelInfo)
    (mgr : WhisperManager C) : Except String (WhisperManager C) :=
  if wlk then
    Except.ok { mgr with
      models := insertModel id (WhisperModel.new now model_path model_info) mgr.models }
  else
    Except.error "Failed to acquire write lock"

/-- `WhisperManager::current_memory_usage`: under the registry read lock
(`rlk`), sum `memory_usage` over the slots whose own lock (`slk`) can be
acquired (`filter_map` drops the rest); 0 when the registry lock fails. -/
def WhisperManager.current_memory_usage {C : Type} (rlk : Bool)
    (slk : String → Bool) (mgr : WhisperManager C) : Nat :=
  if rlk then
    (mgr.models.map (fun p => if slk p.1 then p.2.memory_usage else 0)).sum
  else 0

/-- `WhisperManager::manage_memory`: when the aggregated usage (computed
under read-lock oracle `rlk1`) exceeds the limit, walk the registry under a
second read-lock acquisition (`rlk2`) and unload every slot whose lock is
acquirable and whose `should_unload` holds. -/
def WhisperManager.manage_memory {C : Type} (rlk1 rlk2 : Bool)
    (slk : String → Bool) (now : Nat) (mgr : WhisperManager C) :
    Except String (WhisperManager C) :=
  let current_usage := mgr.current_memory_usage rlk1 slk
  if mgr.memory_limit < current_usage then
    if rlk2 then
      Except.ok { mgr with
        models := mgr.models.map (fun p =>
          if slk p.1 && p.2.should_unload now then (p.1, p.2.unload) else p) }
    else
      Except.error "Failed to acquire read lock"
  else
    Except.ok mgr

/-- `WhisperManager::suggest_model_downgrade`: under the monitor lock
(`mlk`), map "medium" → "small" and "small" → "tiny" when the rolling
average exceeds 80; `None` otherwise (also on lock failure). -/
def WhisperManager.suggest_model_downgrade {C : Type} (mlk : Bool)
    (mgr : WhisperManager C) (current_model : String) : Option String :=
  if mlk then
    if mgr.cpu_monitor.should_downgrade 80 then
      if strContains current_model "medium" then some "small"
      else if strContains current_model "small" then some "tiny"
      else none
    else none
  else none

/-- The segment-collection loop of `WhisperManager::transcribe`: for each
`i` in `0..num_segments`, append the segment text when
`full_get_segment_text(i)` succeeds, followed by a space when
`i < num_segments - 1`. -/
def buildText (segText : Nat → Except String String) (num_segments : Nat) : String :=
  (List.range num_segments).foldl (fun full_text i =>
    match segText i with
    | Except.ok segment_text =>
        if i < num_segments - 1 then full_text ++ segment_text ++ " "
        else full_text ++ segment_text
    | Except.error _ => full_text) ""

/-- `WhisperManager::transcribe`. Oracles: `rlk1`/`rlk2` the read-lock
acquisitions inside `manage_memory`, `rlk3` the read lock of the lookup,
`slk` the per-slot locks, `mlk` the monitor lock; `engine` the engine
constructor by path, `infer` the `context.full` call, `segCount`
`full_n_segments`, `segText` `full_get_segment_text`, `elapsed_secs` the
measured wall time. Every failing step returns early (Rust `?`), so the
CPU-recording step at the end runs only on the success path. -/
def WhisperManager.transcribe {C : Type} (rlk1 rlk2 rlk3 : Bool)
    (slk : String → Bool) (mlk : Bool) (now : Nat)
    (engine : String → Except String C) (infer : Except String Unit)
    (segCount : Except String Nat) (segText : Nat → Except String String)
    (elapsed_secs : ℚ) (mgr : WhisperManager C) (model_id : String) :
    Except String String × WhisperManager C :=
  match mgr.manage_memory rlk1 rlk2 slk now with
  | Except.error e => (Except.error e, mgr)
  | Except.ok mgr1 =>
    if rlk3 then
      match lookupModel model_id mgr1.models with
      | none => (Except.error ("Model '" ++ model_id ++ "' not found"), mgr1)
      | some model =>
        if slk model_id then
          let loaded := model.ensure_loaded (engine model.model_path) now
          let mgr2 : WhisperManager C :=
            { mgr1 with models := insertModel model_id loaded.2 mgr1.models }
          match loaded.1 with
          | Except.error e => (Except.error e, mgr2)
          | Except.ok _context =>
            match infer with
            | Except.error e => (Except.error ("Transcription failed: " ++ e), mgr2)
            | Except.ok _ =>
              match segCount with
              | Except.error e =>
                  (Except.error ("Failed to get segment count: " ++ e), mgr2)
              | Except.ok num_segments =>
                  let result := (buildText segText num_segments).trim
                  let estimated_cpu : ℚ := min (elapsed_secs * 100) 100
                  let mgr3 : WhisperManager C :=
                    if mlk then
                      { mgr2 with
                        cpu_monitor := mgr2.cpu_monitor.record_cpu_usage estimated_cpu }
                    else mgr2
                  (Except.ok result, mgr3)
        else (Except.error "Failed to acquire model lock", mgr1)
    else (Except.error "Failed to acquire read lock", mgr1)

/-- FFI `whisper_get_avg_cpu_usage`: the monitor average under its lock,
0 when the lock fails. -/
def whisper_get_avg_cpu_usage {C : Type} (mlk : Bool)
    (mgr : WhisperManager C) : ℚ :=
  if mlk then mgr.cpu_monitor.average_cpu_usage else 0

/-- The path sanitisation of `whisper_init`:
`path.replace(['/', '\\', '.'], "_")`. -/
def sanitizePath (path : String) : String :=
  String.mk (path.data.map (fun c =>
    if c = '/' || c = '\\' || c = '.' then '_' else c))

/-- The model id `whisper_init` derives from a path. -/
def derive_model_id (path : String) : String :=
  "model_" ++ sanitizePath path

/-- The `ModelInfo` that `whisper_init` builds from a path. -/
def model_info_from_path (path : String) : ModelInfo :=
  let model_size := ModelSize.from_name path
  { name := path
    size := model_size
    memory_usage :=
      match model_size with
      | ModelSize.Tiny => 39 * 1024 * 1024
      | ModelSize.Small => 244 * 1024 * 1024
      | ModelSize.Medium => 769 * 1024 * 1024
    cpu_factor :=
      match model_size with
      | ModelSize.Tiny => 1
      | ModelSize.Small => 5 / 2
      | ModelSize.Medium => 4 }

/-- The registration step of `whisper_init`: derive the id from the path and
register the model under it. -/
def whisper_init_register {C : Type} (wlk : Bool) (now : Nat) (path : String)
    (mgr : WhisperManager C) : Except String (WhisperManager C) :=
  mgr.register_model wlk now (derive_model_id path) path (model_info_from_path path)

/-- Sample descriptor of an 800MB model, used in concrete scenarios. -/
def infoBig : ModelInfo :=
  { name := "big", size := ModelSize.Medium,
    memory_usage := 800 * 1024 * 1024, cpu_factor := 4 }

/-- Sample descriptor of a 39MB tiny model. -/
def infoTiny : ModelInfo :=
  { name := "tiny", size := ModelSize.Tiny,
    memory_usage := 39 * 1024 * 1024, cpu_factor := 1 }

/-- A resident 800MB slot last used at time 100. -/
def slotLoaded : WhisperModel Unit :=
  { ctx := some (), model_path := "p", model_info := infoBig,
    last_used := 100, idle_timeout := 30, is_loading := false }

/-- A resident tiny slot last used at time 0. -/
def slotTinyLoaded : WhisperModel Unit :=
  { ctx := some (), model_path := "p", model_info := infoTiny,
    last_used := 0, idle_timeout := 30, is_loading := false }

/-- A fresh unloaded slot. -/
def slotFresh : WhisperModel Unit := WhisperModel.new 0 "p" infoTiny

/-- A manager holding one resident 800MB slot: over the 700MB budget. -/
def mgrOver : WhisperManager Unit :=
  { models := [("m", slotLoaded)], memory_limit := 700 * 1024 * 1024,
    cpu_monitor := CpuMonitor.new }

/-- A manager holding one resident tiny slot. -/
def mgrTiny : WhisperManager Unit :=
  { models := [("m", slotTinyLoaded)], memory_limit := 700 * 1024 * 1024,
    cpu_monitor := CpuMonitor.new }

/-- A monitor whose rolling average is 90. -/
def monitorHigh : CpuMonitor :=
  { cpu_samples := [90, 90, 90], sample_count := 3, max_samples := 10 }

/-- A monitor at full capacity with counter 12. -/
def monitorFull : CpuMonitor :=
  { cpu_samples := [1, 2, 3, 4, 5, 6, 7, 8, 9, 10], sample_count := 12,
    max_samples := 10 }

/-- A manager whose monitor average is 90 (above the 80 threshold). -/
def mgrHigh : WhisperManager Unit :=
  { models := [], memory_limit := 700 * 1024 * 1024, cpu_monitor := monitorHigh }

/-- C3: `memory_usage` returns the registered `ModelInfo.memory_usage` when
the engine handle is present and 0 when it is absent; a fresh slot and a
just-unloaded slot report 0; the contribution is nonzero only while the
handle is present. -/
theorem memory_usage_resident_iff {C : Type} (m : WhisperModel C) (now : Nat)
    (path : String) (info : ModelInfo) :
    (m.ctx.isSome = true → m.memory_usage = m.model_info.memory_usage) ∧
    (m.ctx = none → m.memory_usage = 0) ∧
    (WhisperModel.new (C := C) now path info).memory_usage = 0 ∧
    m.unload.memory_usage = 0 ∧
    (m.memory_usage ≠ 0 → m.ctx.isSome = true) := by
  refine ⟨?_, ?_, rfl, rfl, ?_⟩
  · intro h
    cases hc : m.ctx with
    | none => rw [hc] at h; exact absurd h (by simp)
    | some c => simp [WhisperModel.memory_usage, hc]
  · intro hc
    simp [WhisperModel.memory_usage, hc]
  · intro h
    cases hc : m.ctx with
    | none => exact absurd (by simp [WhisperModel.memory_usage, hc]) h
    | some c => simp

/-- C3 witness: a resident slot reports its registered 39MB footprint. -/
theorem memory_usage_resident_iff_witness :
    slotTinyLoaded.memory_usage = infoTiny.memory_usage := by
  exact (memory_usage_resident_iff slotTinyLoaded 0 "p" infoTiny).1 rfl

/-- C2: `ensure_loaded` touches `last_used` unconditionally on every call;
when the engine constructor fails on an unloaded, not-loading slot, it
returns the load error and leaves the slot unloaded (handle absent,
loading flag cleared, memory 0); and the next call with a working
constructor succeeds. -/
theorem ensure_loaded_touch_and_failure {C : Type} (engine : Except String C)
    (now : Nat) (m : WhisperModel C) (e : String) :
    ((m.ensure_loaded engine now).2.last_used = now) ∧
    (m.ctx = none → m.is_loading = false → engine = Except.error e →
      (m.ensure_loaded engine now).1
          = Except.error ("Failed to load model: " ++ e) ∧
      (m.ensure_loaded engine now).2.ctx = none ∧
      (m.ensure_loaded engine now).2.is_loading = false ∧
      (m.ensure_loaded engine now).2.memory_usage = 0) ∧
    (∀ (c : C) (now2 : Nat), m.ctx = none → m.is_loading = false →
      engine = Except.error e →
      ((m.ensure_loaded engine now).2.ensure_loaded (Except.ok c) now2).1
          = Except.ok c) := by
  refine ⟨?_, ?_, ?_⟩
  · unfold WhisperModel.ensure_loaded
    cases engine <;> by_cases hcond : (m.ctx.isNone && !m.is_loading) = true <;>
      simp [hcond]
  · intro hc hl he
    subst he
    simp [WhisperModel.ensure_loaded, WhisperModel.memory_usage, hc, hl]
  · intro c now2 hc hl he
    subst he
    simp [WhisperModel.ensure_loaded, ctxResult, hc, hl]

/-- C2 witness: on a fresh slot a failing constructor yields the load
error at time 7. -/
theorem ensure_loaded_touch_and_failure_witness :
    (slotFresh.ensure_loaded (Except.error "boom") 7).1
      = Except.error ("Failed to load model: " ++ "boom") := by
  exact ((ensure_loaded_touch_and_failure (Except.error "boom") 7 slotFresh
    "boom").2.1 rfl rfl rfl).1

/-- C4: on a capacity-10 monitor, `record_cpu_usage` appends below
capacity, overwrites index `sample_count % 10` at capacity, and always
increments `sample_count`; feeding 11 samples into a fresh monitor leaves
exactly the 10 most recent ones. -/
theorem record_cpu_usage_ring (m : CpuMonitor) (x : ℚ)
    (a b c d e f g h i j k : ℚ) :
    (m.max_samples = 10 → m.cpu_samples.length < 10 →
      (m.record_cpu_usage x).cpu_samples = m.cpu_samples ++ [x]) ∧
    (m.max_samples = 10 → m.cpu_samples.length = 10 →
      (m.record_cpu_usage x).cpu_samples
          = m.cpu_samples.set (m.sample_count % 10) x) ∧
    ((m.record_cpu_usage x).sample_count = m.sample_count + 1) ∧
    ((feedAll CpuMonitor.new [a, b, c, d, e, f, g, h, i, j, k]).cpu_samples
        = [k, b, c, d, e, f, g, h, i, j]) ∧
    List.Perm
      (feedAll CpuMonitor.new [a, b, c, d, e, f, g, h, i, j, k]).cpu_samples
      [b, c, d, e, f, g, h, i, j, k] := by
  have hs : (feedAll CpuMonitor.new [a, b, c, d, e, f, g, h, i, j, k]).cpu_samples
      = [k, b, c, d, e, f, g, h, i, j] := by
    norm_num [feedAll, CpuMonitor.new, CpuMonitor.record_cpu_usage]
  refine ⟨?_, ?_, rfl, hs, ?_⟩
  · intro hmax hlen
    simp [CpuMonitor.record_cpu_usage, hmax, hlen]
  · intro hmax hlen
    have hnot : ¬ m.cpu_samples.length < 10 := by omega
    simp [CpuMonitor.record_cpu_usage, hmax, hnot]
  · rw [hs]
    have hperm := @List.perm_append_comm ℚ [k] [b, c, d, e, f, g, h, i, j]
    simpa using hperm

/-- C4 witness: at capacity with counter 12, the new sample lands at index
12 % 10 = 2, and for a fresh monitor a first sample is appended. -/
theorem record_cpu_usage_ring_witness :
    (monitorFull.record_cpu_usage 99).cpu_samples
        = monitorFull.cpu_samples.set (12 % 10) 99 ∧
    (CpuMonitor.new.record_cpu_usage 55).cpu_samples = [55] := by
  constructor
  · exact (record_cpu_usage_ring monitorFull 99 0 0 0 0 0 0 0 0 0 0 0).2.1 rfl rfl
  · exact (record_cpu_usage_ring CpuMonitor.new 55 0 0 0 0 0 0 0 0 0 0 0).1 rfl
      (by decide)

/-- C5: the rolling average is 0 on an empty buffer and the arithmetic
mean of the held samples otherwise; a fresh monitor fed [50,60,70] reports
60; `should_downgrade t` holds iff the average strictly exceeds `t`. -/
theorem average_cpu_usage_mean (m : CpuMonitor) (t : ℚ) :
    (m.cpu_samples = [] → m.average_cpu_usage = 0) ∧
    (m.cpu_samples ≠ [] →
      m.average_cpu_usage = m.cpu_samples.sum / (m.cpu_samples.length : ℚ)) ∧
    ((feedAll CpuMonitor.new [50, 60, 70]).average_cpu_usage = 60) ∧
    (m.should_downgrade t = true ↔ t < m.average_cpu_usage) := by
  refine ⟨?_, ?_, ?_, ?_⟩
  · intro hc
    simp [CpuMonitor.average_cpu_usage, hc]
  · intro hc
    simp [CpuMonitor.average_cpu_usage, List.isEmpty_iff, hc]
  · norm_num [feedAll, CpuMonitor.new, CpuMonitor.record_cpu_usage,
      CpuMonitor.average_cpu_usage]
  · simp [CpuMonitor.should_downgrade]

/-- C5 witness: a fresh monitor reports average 0, and after [50,60,70]
`should_downgrade 80` is false while `should_downgrade 50` is true. -/
theorem average_cpu_usage_mean_witness :
    CpuMonitor.new.average_cpu_usage = 0 ∧
    (feedAll CpuMonitor.new [50, 60, 70]).should_downgrade 80 = false := by
  constructor
  · exact (average_cpu_usage_mean CpuMonitor.new 0).1 rfl
  · have hiff := (average_cpu_usage_mean
      (feedAll CpuMonitor.new [50, 60, 70]) 80).2.2.2
    have havg := (average_cpu_usage_mean
      (feedAll CpuMonitor.new [50, 60, 70]) 80).2.2.1
    rw [havg] at hiff
    simp only [Bool.eq_false_iff]
    intro htrue
    exact absurd (hiff.mp htrue) (by norm_num)

/-- C6: with the monitor lock held and the rolling average above 80,
`suggest_model_downgrade` maps an id containing "medium" to "small", one
containing "small" (but not "medium") to "tiny", and any other id to
`none`; when the average is at or below 80, or the lock fails, every id
yields `none`. -/
theorem suggest_model_downgrade_cases {C : Type} (mlk : Bool)
    (mgr : WhisperManager C) (id : String) :
    (80 < mgr.cpu_monitor.average_cpu_usage →
      ((strContains id "medium" = true →
          mgr.suggest_model_downgrade true id = some "small") ∧
       (strContains id "medium" = false → strContains id "small" = true →
          mgr.suggest_model_downgrade true id = some "tiny") ∧
       (strContains id "medium" = false → strContains id "small" = false →
          mgr.suggest_model_downgrade true id = none))) ∧
    (mgr.cpu_monitor.average_cpu_usage ≤ 80 →
      mgr.suggest_model_downgrade mlk id = none) ∧
    (mgr.suggest_model_downgrade false id = none) := by
  refine ⟨?_, ?_, rfl⟩
  · intro havg
    refine ⟨?_, ?_, ?_⟩
    · intro hmed
      simp [WhisperManager.suggest_model_downgrade, CpuMonitor.should_downgrade,
        havg, hmed]
    · intro hmed hsmall
      simp [WhisperManager.suggest_model_downgrade, CpuMonitor.should_downgrade,
        havg, hmed, hsmall]
    · intro hmed hsmall
      simp [WhisperManager.suggest_model_downgrade, CpuMonitor.should_downgrade,
        havg, hmed, hsmall]
  · intro havg
    cases mlk with
    | false => rfl
    | true =>
        simp [WhisperManager.suggest_model_downgrade, CpuMonitor.should_downgrade,
          not_lt.mpr havg]

/-- C6 witness: with average 90, "whisper-medium" maps to "small",
"ggml-small" to "tiny", and "ggml-tiny" to no suggestion. -/
theorem suggest_model_downgrade_cases_witness :
    mgrHigh.suggest_model_downgrade true "whisper-medium" = some "small" ∧
    mgrHigh.suggest_model_downgrade true "ggml-small" = some "tiny" ∧
    mgrHigh.suggest_model_downgrade true "ggml-tiny" = none := by
  have havg : (80 : ℚ) < mgrHigh.cpu_monitor.average_cpu_usage := by
    norm_num [mgrHigh, monitorHigh, CpuMonitor.average_cpu_usage]
  refine ⟨?_, ?_, ?_⟩
  · exact ((suggest_model_downgrade_cases true mgrHigh "whisper-medium").1
      havg).1 (by decide)
  · exact ((suggest_model_downgrade_cases true mgrHigh "ggml-small").1
      havg).2.1 (by decide) (by decide)
  · exact ((suggest_model_downgrade_cases true mgrHigh "ggml-tiny").1
      havg).2.2 (by decide) (by decide)

/-- Summing the per-slot contributions with locked-out slots replaced by 0
equals summing over the lock-acquirable slots. -/
theorem sum_lockable {C : Type} (slk : String → Bool) :
    ∀ l : List (String × WhisperModel C),
      (l.map (fun p => if slk p.1 then p.2.memory_usage else 0)).sum
        = ((l.filter (fun p => slk p.1)).map (fun p => p.2.memory_usage)).sum := by
  intro l
  induction l with
  | nil => rfl
  | cons hd tl ih =>
      by_cases hlock : slk hd.1 = true
      · simp [List.filter_cons, hlock, ih]
      · simp [List.filter_cons, hlock, ih]

/-- C7: `current_memory_usage` sums `memory_usage` over all slots when
every lock is acquirable; in general it sums over the slots whose lock is
acquirable, so a locked-out slot contributes 0; and a registry-lock
failure yields 0 instead of an error. -/
theorem current_memory_usage_sum {C : Type} (slk : String → Bool)
    (mgr : WhisperManager C) :
    (mgr.current_memory_usage true (fun _ => true)
        = (mgr.models.map (fun p => p.2.memory_usage)).sum) ∧
    (mgr.current_memory_usage true slk
        = ((mgr.models.filter (fun p => slk p.1)).map
            (fun p => p.2.memory_usage)).sum) ∧
    (mgr.current_memory_usage false slk = 0) := by
  refine ⟨?_, ?_, rfl⟩
  · simp [WhisperManager.current_memory_usage]
  · simp only [WhisperManager.current_memory_usage, if_pos]
    exact sum_lockable slk mgr.models

/-- C1: `manage_memory` leaves the registry untouched when the aggregated
usage is at or under the limit; whenever it succeeds, a slot for which
`should_unload` fails keeps its entry unchanged, and a slot observed
unloaded that was resident before must have had the total over the limit
and `should_unload` true; the manager's limit is the global 700MB. -/
theorem manage_memory_advisory {C : Type} (rlk1 rlk2 : Bool)
    (slk : String → Bool) (now : Nat) (mgr : WhisperManager C) :
    (mgr.current_memory_usage rlk1 slk ≤ mgr.memory_limit →
      mgr.manage_memory rlk1 rlk2 slk now = Except.ok mgr) ∧
    (∀ mgr2, mgr.manage_memory rlk1 rlk2 slk now = Except.ok mgr2 →
      ∀ n p, mgr.models.get? n = some p →
        ((p.2.should_unload now = false → mgr2.models.get? n = some p) ∧
         (∀ q, mgr2.models.get? n = some q → q.2.ctx = none →
            p.2.ctx ≠ none →
            mgr.memory_limit < mgr.current_memory_usage rlk1 slk ∧
            p.2.should_unload now = true))) ∧
    (WhisperManager.new (C := C)).memory_limit = 700 * 1024 * 1024 := by
  refine ⟨?_, ?_, rfl⟩
  · intro hle
    simp only [WhisperManager.manage_memory]
    rw [if_neg (not_lt.mpr hle)]
  · intro mgr2 hrun n p hget
    simp only [WhisperManager.manage_memory] at hrun
    by_cases hover : mgr.memory_limit < mgr.current_memory_usage rlk1 slk
    · rw [if_pos hover] at hrun
      cases rlk2 with
      | false => exact absurd hrun (by simp)
      | true =>
          simp only [if_pos] at hrun
          have hmodels : mgr2.models = mgr.models.map (fun p =>
              if slk p.1 && p.2.should_unload now then (p.1, p.2.unload) else p) := by
            cases hrun
            rfl
          constructor
          · intro hsu
            rw [hmodels, List.get?_map, hget]
            simp [hsu]
          · intro q hq hqc hpc
            rw [hmodels, List.get?_map, hget] at hq
            have hqeq : (if slk p.1 && p.2.should_unload now
                then (p.1, p.2.unload) else p) = q := Option.some.inj hq
            by_cases hcond : (slk p.1 && p.2.should_unload now) = true
            · exact ⟨hover, (Bool.and_eq_true _ _ |>.mp hcond).2⟩
            · rw [if_neg hcond] at hqeq
              cases hqeq
              exact absurd hqc hpc
    · rw [if_neg hover] at hrun
      cases hrun
      constructor
      · intro _
        exact hget
      · intro q hq hqc hpc
        rw [hget] at hq
        cases hq
        exact absurd hqc hpc

/-- C1 witness: at time 100, a manager 800MB over the 700MB budget keeps
its only slot (used at time 100, so inside its 30s idle window) resident
and registered. -/
theorem manage_memory_advisory_witness :
    mgrOver.models.get? 0 = some ("m", slotLoaded) := by
  have happ := (manage_memory_advisory true true (fun _ => true) 100
      mgrOver).2.1 mgrOver (by rfl) 0 ("m", slotLoaded) rfl
  exact happ.1 rfl

/-- C10: the `whisper_init` id derivation identifies the distinct paths
"a.b" and "a/b", and initialising "a/b" after "a.b" silently replaces the
first slot: a single slot remains, holding the second path. -/
theorem derive_model_id_collision :
    derive_model_id "a.b" = derive_model_id "a/b" ∧
    "a.b" ≠ "a/b" ∧
    ((whisper_init_register true 0 "a.b" (WhisperManager.new (C := Unit))).bind
        (whisper_init_register true 1 "a/b")
      = Except.ok { WhisperManager.new (C := Unit) with
          models := [(derive_model_id "a.b",
            WhisperModel.new 1 "a/b" (model_info_from_path "a/b"))] }) := by
  refine ⟨rfl, by decide, rfl⟩

/-- `manage_memory` never touches the CPU monitor. -/
theorem manage_memory_monitor {C : Type} (rlk1 rlk2 : Bool)
    (slk : String → Bool) (now : Nat) (mgr mgr2 : WhisperManager C) :
    mgr.manage_memory rlk1 rlk2 slk now = Except.ok mgr2 →
    mgr2.cpu_monitor = mgr.cpu_monitor := by
  intro hrun
  simp only [WhisperManager.manage_memory] at hrun
  by_cases hover : mgr.memory_limit < mgr.current_memory_usage rlk1 slk
  · rw [if_pos hover] at hrun
    cases rlk2 with
    | false => exact absurd hrun (by simp)
    | true =>
        simp only [if_pos] at hrun
        cases hrun
        rfl
  · rw [if_neg hover] at hrun
    cases hrun
    rfl

/-- C8 counterexample: a `transcribe` call that fails (here with
ModelNotFound on an empty registry) records no CPU sample: the whole
manager, monitor included, is returned unchanged. This refutes "the
recording step occurs on every transcribe call, including those that
return an error". -/
theorem transcribe_error_records_nothing :
    (WhisperManager.transcribe true true true (fun _ => true) true 0
        (fun _ => Except.error "no engine") (Except.ok ()) (Except.ok 0)
        (fun _ => Except.error "none") 1 (WhisperManager.new (C := Unit)) "m").1
      = Except.error "Model 'm' not found" ∧
    (WhisperManager.transcribe true true true (fun _ => true) true 0
        (fun _ => Except.error "no engine") (Except.ok ()) (Except.ok 0)
        (fun _ => Except.error "none") 1 (WhisperManager.new (C := Unit)) "m").2
      = WhisperManager.new (C := Unit) := by
  exact ⟨rfl, rfl⟩

/-- C8 amended: `transcribe` performs the CPU-recording step — one sample
of `min (elapsed × 100) 100` — only on the success path (and only when the
monitor lock is acquired); every error return exits before the recording
step, leaving the monitor unchanged. -/
theorem transcribe_cpu_sample_on_success_only {C : Type}
    (rlk1 rlk2 rlk3 : Bool) (slk : String → Bool) (mlk : Bool) (now : Nat)
    (engine : String → Except String C) (infer : Except String Unit)
    (segCount : Except String Nat) (segText : Nat → Except String String)
    (elapsed_secs : ℚ) (mgr : WhisperManager C) (id : String) :
    (∀ e, (WhisperManager.transcribe rlk1 rlk2 rlk3 slk mlk now engine infer
        segCount segText elapsed_secs mgr id).1 = Except.error e →
      (WhisperManager.transcribe rlk1 rlk2 rlk3 slk mlk now engine infer
        segCount segText elapsed_secs mgr id).2.cpu_monitor = mgr.cpu_monitor) ∧
    (∀ s, mlk = true →
      (WhisperManager.transcribe rlk1 rlk2 rlk3 slk mlk now engine infer
        segCount segText elapsed_secs mgr id).1 = Except.ok s →
      (WhisperManager.transcribe rlk1 rlk2 rlk3 slk mlk now engine infer
        segCount segText elapsed_secs mgr id).2.cpu_monitor
        = mgr.cpu_monitor.record_cpu_usage (min (elapsed_secs * 100) 100)) := by
  unfold WhisperManager.transcribe
  cases hmm : mgr.manage_memory rlk1 rlk2 slk now with
  | error e0 => exact ⟨fun e he => rfl, fun s hmlk hs => by cases hs⟩
  | ok mgr1 =>
      have hcm : mgr1.cpu_monitor = mgr.cpu_monitor :=
        manage_memory_monitor rlk1 rlk2 slk now mgr mgr1 hmm
      cases rlk3 with
      | false => exact ⟨fun e he => hcm, fun s hmlk hs => by cases hs⟩
      | true =>
          simp only [if_pos]
          cases hlook : lookupModel id mgr1.models with
          | none => exact ⟨fun e he => hcm, fun s hmlk hs => by cases hs⟩
          | some model =>
              cases hslk : slk id with
              | false => exact ⟨fun e he => hcm, fun s hmlk hs => by cases hs⟩
              | true =>
                  simp only [if_pos]
                  cases hload : (model.ensure_loaded (engine model.model_path) now).1 with
                  | error e1 => exact ⟨fun e he => hcm, fun s hmlk hs => by cases hs⟩
                  | ok context =>
                      cases infer with
                      | error e2 => exact ⟨fun e he => hcm, fun s hmlk hs => by cases hs⟩
                      | ok u =>
                          cases segCount with
                          | error e3 =>
                              exact ⟨fun e he => hcm, fun s hmlk hs => by cases hs⟩
                          | ok num_segments =>
                              constructor
                              · intro e he
                                cases he
                              · intro s hmlk hs
                                cases hmlk
                                simp only [if_pos]
                                rw [hcm]

/-- C8 witness: a successful transcribe (resident tiny slot, one segment
"hello", elapsed 1/2s) ends with the monitor holding exactly the new
sample min(1/2 × 100, 100). -/
theorem transcribe_cpu_sample_on_success_only_witness :
    (WhisperManager.transcribe true true true (fun _ => true) true 5
        (fun _ => Except.ok ()) (Except.ok ()) (Except.ok 1)
        (fun _ => Except.ok "hello") (1 / 2) mgrTiny "m").2.cpu_monitor
      = mgrTiny.cpu_monitor.record_cpu_usage (min ((1 / 2 : ℚ) * 100) 100) := by
  exact (transcribe_cpu_sample_on_success_only true true true (fun _ => true)
      true 5 (fun _ => Except.ok ()) (Except.ok ()) (Except.ok 1)
      (fun _ => Except.ok "hello") (1 / 2) mgrTiny "m").2 ("hello".trim) rfl rfl

/-- C9 counterexample: lock failures the code swallows instead of
surfacing: with the monitor lock failing, `suggest_model_downgrade`
returns the ordinary `none` (with the lock held it would say "small") and
`whisper_get_avg_cpu_usage` returns 0; with the registry lock failing,
`current_memory_usage` reports 0 for a manager holding a resident 800MB
slot (with the lock held it reports 800MB). None of these paths produces
an error, refuting "no code path swallows a lock-acquisition failure
silently". -/
theorem lock_failure_swallowed :
    mgrHigh.suggest_model_downgrade false "whisper-medium" = none ∧
    mgrHigh.suggest_model_downgrade true "whisper-medium" = some "small" ∧
    whisper_get_avg_cpu_usage false mgrHigh = 0 ∧
    mgrOver.current_memory_usage false (fun _ => true) = 0 ∧
    mgrOver.current_memory_usage true (fun _ => true) = 800 * 1024 * 1024 := by
  refine ⟨rfl, ?_, rfl, rfl, rfl⟩
  have hsd : mgrHigh.cpu_monitor.should_downgrade 80 = true := by
    simp only [CpuMonitor.should_downgrade, decide_eq_true_eq]
    norm_num [mgrHigh, monitorHigh, CpuMonitor.average_cpu_usage]
  simp only [WhisperManager.suggest_model_downgrade, hsd]
  rfl

/-- C9 amended: lock failures on the registration and transcription paths
(registry write lock, registry read lock for lookup, per-slot lock) are
surfaced as errors, but the monitor-lock failures in
`suggest_model_downgrade` and `whisper_get_avg_cpu_usage`, the
registry-lock failure in `current_memory_usage`, and slot-lock failures
in `manage_memory` are degraded to neutral values (`none`, 0, a skipped
slot) rather than surfaced. -/
theorem lock_failure_policy {C : Type} (rlk2 : Bool) (slk : String → Bool)
    (now : Nat) (engine : String → Except String C) (infer : Except String Unit)
    (segCount : Except String Nat) (segText : Nat → Except String String)
    (elapsed_secs : ℚ) (mgr : WhisperManager C) (id path : String)
    (info : ModelInfo) (slot : WhisperModel C) :
    (mgr.register_model false now id path info
        = Except.error "Failed to acquire write lock") ∧
    ((WhisperManager.transcribe false rlk2 false slk true now engine infer
        segCount segText elapsed_secs mgr id).1
        = Except.error "Failed to acquire read lock") ∧
    (lookupModel id mgr.models = some slot → slk id = false →
      (WhisperManager.transcribe false rlk2 true slk true now engine infer
          segCount segText elapsed_secs mgr id).1
        = Except.error "Failed to acquire model lock") ∧
    (mgr.suggest_model_downgrade false id = none) ∧
    (whisper_get_avg_cpu_usage false mgr = 0) ∧
    (mgr.current_memory_usage false slk = 0) ∧
    (∀ rlk1, ∃ mgr2, mgr.manage_memory rlk1 true slk now = Except.ok mgr2) := by
  have hmg : mgr.manage_memory false rlk2 slk now = Except.ok mgr := rfl
  refine ⟨rfl, ?_, ?_, rfl, rfl, rfl, ?_⟩
  · simp only [WhisperManager.transcribe, hmg]
    rfl
  · intro hlook hslk
    simp only [WhisperManager.transcribe, hmg, hlook, hslk]
    simp
  · intro rlk1
    by_cases hover : mgr.memory_limit < mgr.current_memory_usage rlk1 slk
    · refine ⟨{ mgr with models := mgr.models.map (fun p =>
          if slk p.1 && p.2.should_unload now then (p.1, p.2.unload) else p) }, ?_⟩
      simp only [WhisperManager.manage_memory]
      rw [if_pos hover]
      simp
    · refine ⟨mgr, ?_⟩
      simp only [WhisperManager.manage_memory]
      rw [if_neg hover]

/-- C9 witness: with every per-slot lock failing, a transcribe call on a
registered model id surfaces the slot-lock failure as an error. -/
theorem lock_failure_policy_witness :
    (WhisperManager.transcribe false true true (fun _ => false) true 0
        (fun _ => Except.ok ()) (Except.ok ()) (Except.ok 0)
        (fun _ => Except.ok "") 1 mgrOver "m").1
      = Except.error "Failed to acquire model lock" := by
  exact (lock_failure_policy true (fun _ => false) 0 (fun _ => Except.ok ())
      (Except.ok ()) (Except.ok 0) (fun _ => Except.ok "") 1 mgrOver "m" "p"
      infoBig slotLoaded).2.2.1 rfl rfl

end WhisperNode
